import Mathlib

/-!
Verification development for the portfolio/blog repository.

We shallowly embed the content data (`src/app/resources/content.js`),
the article detail route (`src/app/articles/[id]/page.tsx`), the article
list page (`src/app/articles/page.tsx`), the header navigation highlight
and clock (`Header` / `TimeDisplay`), and prove the specified properties.

JS strings are embedded as Lean `String`; JS string operations (`===`,
`startsWith`, string concatenation) are given explicit character-list
based Lean counterparts so that reasoning stays elementary.
-/

namespace Portfolio

/-- Embedding of JS `String.prototype.startsWith`: `s.startsWith(pre)`
holds iff the character sequence of `pre` is a prefix of that of `s`. -/
def jsStartsWith (s pre : String) : Bool :=
  pre.data.isPrefixOf s.data

/-- An article metadata record, from `content.js` (`articles.data` entries):
`id, title, description, date, image, link, tags`. -/
structure Article where
  id : Nat
  title : String
  description : String
  date : String
  image : String
  link : String
  tags : List String
deriving Repr, DecidableEq

/-- The `articles` object of `content.js`: label, page title, page
description and the metadata list. -/
structure ArticlesSection where
  label : String
  title : String
  description : String
  data : List Article
deriving Repr, DecidableEq

/-- First metadata record of `articles.data` in `content.js`. -/
def article0 : Article :=
  { id := 0
    title := "Building Scalable React Applications"
    description := "Learn how to architect large-scale React applications with best practices for state management, component organization, and performance optimization. This article covers advanced patterns and techniques for building maintainable React codebases."
    date := "May 15, 2024"
    image := "/images/articles/img1.jpg"
    link := "/articles/0"
    tags := ["React", "Architecture", "Performance"] }

/-- Second metadata record of `articles.data` in `content.js`. -/
def article1 : Article :=
  { id := 1
    title := "System Design: Designing the StarWidget"
    description := "A comprehensive guide to migrating your Vue 2 application to Next.js, including strategies for handling state, routing, and server-side rendering. Learn how to plan and execute a phased migration while maintaining application functionality."
    date := "April 29, 2025"
    image := "/images/articles/img2.jpg"
    link := "/articles/1"
    tags := ["System Design"] }

/-- Third metadata record of `articles.data` in `content.js`. -/
def article2 : Article :=
  { id := 2
    title := "Behavioral Interview Questions"
    description := "A collection of behavioral interview questions that are commonly asked in technical interviews. Learn how to prepare for these questions and answer them confidently."
    date := "May 1, 2025"
    image := "/images/articles/img3.jpg"
    link := "/articles/2"
    tags := ["Behavioral Interview", "Frontend Interview"] }

/-- The `articles` constant exported by `content.js`. -/
def articles : ArticlesSection :=
  { label := "Articles"
    title := "Tech Articles"
    description := "A collection of technical articles, tutorials and insights about web development, architecture design and software engineering"
    data := [article0, article1, article2] }

/-- `path.join` for the plain relative segments used by the detail page. -/
def pathJoin (a b : String) : String := a ++ "/" ++ b

/-- `const mdDir = path.join(process.cwd(), "public/articles")`. -/
def mdDir (cwd : String) : String := pathJoin cwd "public/articles"

/-- The path of the markdown body the detail page reads:
`path.join(mdDir, params.id + ".md")`. -/
def articleFilePath (cwd id : String) : String :=
  pathJoin (mdDir cwd) (id ++ ".md")

/-- The metadata lookup of the detail route:
`articles.data.find((a) => a.id.toString() === params.id)`. -/
def findArticle (id : String) : Option Article :=
  articles.data.find? (fun a => toString a.id == id)

/-- The fixed fallback text substituted when the markdown read fails. -/
def fallbackText : String := "File cannot be used"

/-- What `ArticleDetail` renders on a metadata match: the cover image,
title and date from the metadata, and the markdown `content` string
handed to the markdown renderer. -/
structure ArticleView where
  image : String
  title : String
  date : String
  content : String
deriving Repr, DecidableEq

/-- Outcome of the detail route: `notFound()` or a rendered page. -/
inductive DetailResult where
  | notFound : DetailResult
  | page : ArticleView → DetailResult
deriving Repr, DecidableEq

/-- `generateStaticParams`: one id string per metadata record, via
`article.id.toString()`. -/
def generateStaticParams : List String :=
  articles.data.map (fun a => toString a.id)

/-- Embedding of the `ArticleDetail` route handler.  The filesystem is a
map from paths to file text (`none` = missing/unreadable, the `catch`
branch of the source).  The second component is the trace of paths whose
read was attempted, in order. -/
def articleDetail (fs : String → Option String) (cwd id : String) :
    DetailResult × List String :=
  match articles.data.find? (fun a => toString a.id == id) with
  | none => (DetailResult.notFound, [])
  | some article =>
    let filePath := articleFilePath cwd id
    let content :=
      match fs filePath with
      | some text => text
      | none => fallbackText
    (DetailResult.page
      { image := article.image
        title := article.title
        date := article.date
        content := content }, [filePath])

/-! ### Markdown rendering

The detail page hands `content` to `ReactMarkdown` with the `remarkGfm`
plugin.  That renderer is an external library, not code of this
repository, so we model it from the spec. -/

/-- Splits a character list at every occurrence of `c`. -/
def splitOnChar (c : Char) : List Char → List (List Char)
  | [] => [[]]
  | x :: xs =>
    if x == c then [] :: splitOnChar c xs
    else
      match splitOnChar c xs with
      | [] => [[x]]
      | g :: gs => (x :: g) :: gs

/-- Splits a string at every occurrence of `c`. -/
def strSplitOn (s : String) (c : Char) : List String :=
  (splitOnChar c s.data).map String.mk

/-- The lines of a markdown document. -/
def splitLines (s : String) : List String := strSplitOn s '\n'

/-- Drops the first `n` characters of a string. -/
def strDrop (s : String) (n : Nat) : String := String.mk (s.data.drop n)

/-- Modelled from the spec: HTML for one non-table markdown line (the
spec's round-trip example: a heading line `# Hello` renders to
`<h1>Hello</h1>`; other text becomes a paragraph). -/
def mdLineHtml (line : String) : String :=
  if jsStartsWith line "# " then "<h1>" ++ strDrop line 2 ++ "</h1>"
  else if jsStartsWith line "## " then "<h2>" ++ strDrop line 3 ++ "</h2>"
  else if line == "" then ""
  else "<p>" ++ line ++ "</p>"

/-- A GFM table line starts with a pipe. -/
def isTableLine (line : String) : Bool := jsStartsWith line "|"

/-- Modelled from the spec: one GFM table row rendered as a `<tr>` of
cells. -/
def tableRowHtml (line : String) : String :=
  "<tr>" ++
    String.join
      (((strSplitOn line '|').filter (fun cell => cell ≠ "")).map
        (fun cell => "<td>" ++ cell ++ "</td>")) ++
  "</tr>"

/-- Modelled from the spec: render markdown lines to HTML, grouping
consecutive table lines into one `<table>` element (GFM table support). -/
def mdRender : List String → Bool → String
  | [], inTable => if inTable then "</table>" else ""
  | l :: ls, inTable =>
    if isTableLine l then
      (if inTable then "" else "<table>") ++ tableRowHtml l ++ mdRender ls true
    else
      (if inTable then "</table>" else "") ++ mdLineHtml l ++ mdRender ls false

/-- Modelled from the spec: `ReactMarkdown` with `remarkGfm` — parse the
text as markdown with table/extension support and render to HTML. -/
def markdownToHtml (s : String) : String := mdRender (splitLines s) false

/-- The HTML body of a rendered detail page: the markdown rendering of
its `content` string. -/
def pageHtml (v : ArticleView) : String := markdownToHtml v.content

/-! ### Article list page (`src/app/articles/page.tsx`) -/

/-- One linked entry of the article index: the `Link` with its shown
fields. -/
structure ArticleListItem where
  href : String
  image : String
  date : String
  title : String
  description : String
  tags : List String
deriving Repr, DecidableEq

/-- What the list page renders: one linked entry per record, or the
empty-state block. -/
inductive ArticlesListView where
  | items : List ArticleListItem → ArticlesListView
  | comingSoon : ArticlesListView
deriving Repr, DecidableEq

/-- The entry rendered for one metadata record:
`<Link href={"/articles/" + article.id}>` showing image, date, title,
description and tags. -/
def entryOfArticle (a : Article) : ArticleListItem :=
  { href := "/articles/" ++ toString a.id
    image := a.image
    date := a.date
    title := a.title
    description := a.description
    tags := a.tags }

/-- The `Articles` list page over a metadata list `data`
(`articles.data` in the source): entries when `data.length > 0`, the
"Coming Soon" empty state otherwise. -/
def articlesPage (data : List Article) : ArticlesListView :=
  if data.length > 0 then ArticlesListView.items (data.map entryOfArticle)
  else ArticlesListView.comingSoon

/-! ### Header navigation highlight (`Header`) -/

/-- `selected={pathname === "/"}` for the home entry. -/
def homeSelected (pathname : String) : Bool := pathname == "/"

/-- `selected={pathname === "/about"}` for the about entry. -/
def aboutSelected (pathname : String) : Bool := pathname == "/about"

/-- `selected={pathname.startsWith("/articles")}` for the articles
entry. -/
def articlesNavSelected (pathname : String) : Bool :=
  jsStartsWith pathname "/articles"

/-! ### Clock (`TimeDisplay`)

`useEffect` runs `updateTime()` once, then
`setInterval(updateTime, 1000)`; the cleanup runs
`clearInterval(intervalId)`.  We model the timer world explicitly:
`now` is the current time in milliseconds, `timer` the absolute time of
the next scheduled firing (`none` once cleared), `displayUpdates` the
number of times `updateTime` has run. -/

/-- The interval delay passed to `setInterval` (milliseconds). -/
def clockIntervalMs : Nat := 1000

/-- State of the mounted-clock simulation. -/
structure ClockSim where
  now : Nat
  timer : Option Nat
  displayUpdates : Nat
deriving Repr, DecidableEq

/-- Mounting the component: `updateTime()` runs immediately and
`setInterval` schedules the first firing `clockIntervalMs` later. -/
def clockMount (s : ClockSim) : ClockSim :=
  { s with
    timer := some (s.now + clockIntervalMs)
    displayUpdates := s.displayUpdates + 1 }

/-- Advancing to the next timer firing: if a firing is scheduled, time
jumps there, `updateTime` runs, and the interval reschedules itself
`clockIntervalMs` later; with no timer, nothing happens. -/
def clockAdvance (s : ClockSim) : ClockSim :=
  match s.timer with
  | some t =>
    { now := t
      timer := some (t + clockIntervalMs)
      displayUpdates := s.displayUpdates + 1 }
  | none => s

/-- Unmounting: the cleanup calls `clearInterval`, cancelling the
scheduled firing. -/
def clockUnmount (s : ClockSim) : ClockSim := { s with timer := none }

/-! ### Auxiliary notions and concrete fixtures -/

/-- JS whitespace trimming (as `Number` coercion performs on a string),
over the character sequence. -/
def jsTrim (s : String) : String :=
  String.mk
    (((s.data.dropWhile (fun c => c.isWhitespace)).reverse.dropWhile
        (fun c => c.isWhitespace)).reverse)

/-- Reads a non-empty all-digit string as a decimal number. -/
def parseDecimal (s : String) : Option Nat :=
  if !s.data.isEmpty && s.data.all (fun c => c.isDigit) then
    some (s.data.foldl (fun n c => n * 10 + (c.toNat - 48)) 0)
  else none

/-- `s` denotes the number `n`: after trimming surrounding whitespace it
is a decimal numeral for `n` (the loose reading under which `"07"` and
`"1 "` denote numbers without being canonical renderings). -/
def denotesId (s : String) (n : Nat) : Prop :=
  parseDecimal (jsTrim s) = some n

instance (s : String) (n : Nat) : Decidable (denotesId s n) := by
  unfold denotesId
  infer_instance

/-- A filesystem with no readable file. -/
def emptyFs : String → Option String := fun _ => none

/-- A filesystem in which exactly the body of article `0` exists and
holds the spec's example document `# Hello`. -/
def fsHello : String → Option String :=
  fun p => if p = articleFilePath "" "0" then some "# Hello" else none

/-! ## Theorems -/

set_option maxRecDepth 10000

/-- The metadata lookup succeeds only on the canonical id strings of the
three records. -/
theorem findArticle_eq_none_of_ne (s : String)
    (h0 : s ≠ "0") (h1 : s ≠ "1") (h2 : s ≠ "2") :
    findArticle s = none := by
  unfold findArticle
  rw [List.find?_eq_none]
  intro a ha
  have hd : a = article0 ∨ a = article1 ∨ a = article2 := by
    simpa [articles] using ha
  rcases hd with rfl | rfl | rfl <;> intro h <;> simp only [beq_iff_eq] at h
  · exact h0 h.symm
  · exact h1 h.symm
  · exact h2 h.symm

/-- Looking up the canonical id string of a listed record finds exactly
that record. -/
theorem findArticle_canonical :
    ∀ a ∈ articles.data, findArticle (toString a.id) = some a := by decide

/-- Unfolding of the detail route on a successful metadata lookup. -/
theorem articleDetail_found (fs : String → Option String) (cwd id : String)
    (a : Article) (h : findArticle id = some a) :
    articleDetail fs cwd id =
      (DetailResult.page
        { image := a.image
          title := a.title
          date := a.date
          content :=
            match fs (articleFilePath cwd id) with
            | some text => text
            | none => fallbackText }, [articleFilePath cwd id]) := by
  unfold findArticle at h
  unfold articleDetail
  rw [h]

/-- Claim C1: for an id with a metadata entry whose markdown file is
missing or unreadable, the detail renderer substitutes the literal
fallback string `"File cannot be used"` as the content, raises no error
(the result is a rendered page, not a failure), and renders the image,
title and date from the metadata normally; the rendered HTML body is the
fallback text in a paragraph. -/
theorem fallback_on_missing_file (fs : String → Option String)
    (cwd id : String) (a : Article)
    (hfind : findArticle id = some a)
    (hmiss : fs (articleFilePath cwd id) = none) :
    articleDetail fs cwd id =
      (DetailResult.page
        { image := a.image
          title := a.title
          date := a.date
          content := fallbackText }, [articleFilePath cwd id]) ∧
    pageHtml
      { image := a.image
        title := a.title
        date := a.date
        content := fallbackText } = "<p>" ++ fallbackText ++ "</p>" := by
  refine ⟨?_, rfl⟩
  rw [articleDetail_found fs cwd id a hfind, hmiss]

/-- Claim C1, witnessed: article `1` is listed but `emptyFs` has no file
for it, and the renderer produces the page with the fallback content. -/
theorem fallback_on_missing_file_witness :
    articleDetail emptyFs "" "1" =
      (DetailResult.page
        { image := article1.image
          title := article1.title
          date := article1.date
          content := fallbackText }, [articleFilePath "" "1"]) ∧
    pageHtml
      { image := article1.image
        title := article1.title
        date := article1.date
        content := fallbackText } = "<p>" ++ fallbackText ++ "</p>" :=
  fallback_on_missing_file emptyFs "" "1" article1 (by decide) rfl

/-- Claim C2: for an id with no metadata entry the detail route yields
the not-found result, renders nothing, and attempts no filesystem
read (the read trace is empty). -/
theorem notFound_on_unknown_id (fs : String → Option String)
    (cwd id : String) (h : findArticle id = none) :
    articleDetail fs cwd id = (DetailResult.notFound, []) := by
  unfold findArticle at h
  unfold articleDetail
  rw [h]

/-- Claim C2, witnessed at the spec's example id `999`. -/
theorem notFound_on_unknown_id_witness :
    articleDetail emptyFs "" "999" = (DetailResult.notFound, []) :=
  notFound_on_unknown_id emptyFs "" "999" (by decide)

/-- Claim C3: for every listed record, looking up its id returns the
record with all metadata fields unchanged, the rendered page carries its
title, date and image unchanged, and the lookup is pure — repeated
calls return the same result. -/
theorem metadata_preserved (fs : String → Option String) (cwd : String)
    (a : Article) (ha : a ∈ articles.data) :
    findArticle (toString a.id) = some a ∧
    (∃ c, (articleDetail fs cwd (toString a.id)).1 =
      DetailResult.page
        { image := a.image, title := a.title, date := a.date, content := c }) ∧
    findArticle (toString a.id) = findArticle (toString a.id) ∧
    articleDetail fs cwd (toString a.id) = articleDetail fs cwd (toString a.id) := by
  have hfind := findArticle_canonical a ha
  refine ⟨hfind,
    ⟨(match fs (articleFilePath cwd (toString a.id)) with
      | some text => text
      | none => fallbackText), ?_⟩, rfl, rfl⟩
  rw [articleDetail_found fs cwd (toString a.id) a hfind]

/-- Claim C3, witnessed on the first listed record. -/
theorem metadata_preserved_witness :
    findArticle (toString article0.id) = some article0 ∧
    (∃ c, (articleDetail emptyFs "" (toString article0.id)).1 =
      DetailResult.page
        { image := article0.image, title := article0.title,
          date := article0.date, content := c }) ∧
    findArticle (toString article0.id) = findArticle (toString article0.id) ∧
    articleDetail emptyFs "" (toString article0.id) =
      articleDetail emptyFs "" (toString article0.id) :=
  metadata_preserved emptyFs "" article0 (by decide)

/-- Claim C4: when the markdown file of a matched id exists, the page's
content is exactly the file text and the page's HTML body is the
markdown rendering (with GFM table support) of that text. -/
theorem markdown_round_trip (fs : String → Option String)
    (cwd id : String) (a : Article) (text : String)
    (hfind : findArticle id = some a)
    (hread : fs (articleFilePath cwd id) = some text) :
    ∃ v, (articleDetail fs cwd id).1 = DetailResult.page v ∧
      v.content = text ∧ pageHtml v = markdownToHtml text := by
  refine ⟨{ image := a.image, title := a.title, date := a.date,
            content := text }, ?_, rfl, rfl⟩
  rw [articleDetail_found fs cwd id a hfind, hread]

/-- Claim C4, witnessed: with `0.md` holding `# Hello` the page body is
`<h1>Hello</h1>`, and GFM table syntax renders to a `<table>`. -/
theorem markdown_round_trip_witness :
    (∃ v, (articleDetail fsHello "" "0").1 = DetailResult.page v ∧
      v.content = "# Hello" ∧ pageHtml v = markdownToHtml "# Hello") ∧
    markdownToHtml "# Hello" = "<h1>Hello</h1>" ∧
    markdownToHtml "|a|b|\n|---|---|" =
      "<table><tr><td>a</td><td>b</td></tr><tr><td>---</td><td>---</td></tr></table>" :=
  ⟨markdown_round_trip fsHello "" "0" article0 "# Hello" (by decide) rfl,
   rfl, rfl⟩

/-- Claim C5: the list page is a pure projection of the metadata list —
one linked entry per record when the list is non-empty (showing date,
title, description and tags, linked under its id), the empty-state block
when it is empty. -/
theorem list_page_projection :
    (∀ data : List Article, data ≠ [] →
      articlesPage data = ArticlesListView.items (data.map entryOfArticle) ∧
      (data.map entryOfArticle).length = data.length) ∧
    articlesPage [] = ArticlesListView.comingSoon ∧
    ∀ a : Article, entryOfArticle a =
      { href := "/articles/" ++ toString a.id
        image := a.image
        date := a.date
        title := a.title
        description := a.description
        tags := a.tags } := by
  refine ⟨?_, rfl, fun a => rfl⟩
  intro data hne
  refine ⟨?_, by simp⟩
  unfold articlesPage
  rw [if_pos (List.length_pos.mpr hne)]

/-- Claim C5, witnessed on the actual metadata list and on the empty
list. -/
theorem list_page_projection_witness :
    articlesPage articles.data =
      ArticlesListView.items (articles.data.map entryOfArticle) ∧
    articlesPage [] = ArticlesListView.comingSoon :=
  ⟨(list_page_projection.1 articles.data (by decide)).1,
   list_page_projection.2.1⟩

/-- Claim C6: the navigation highlight is exact string equality for the
home and about entries and prefix matching for the articles entry —
a path highlights "Articles" precisely when it extends `/articles`. -/
theorem nav_highlight (p : String) :
    (homeSelected p = true ↔ p = "/") ∧
    (aboutSelected p = true ↔ p = "/about") ∧
    (articlesNavSelected p = true ↔ ∃ t : String, p = "/articles" ++ t) := by
  refine ⟨by simp [homeSelected], by simp [aboutSelected], ?_⟩
  unfold articlesNavSelected jsStartsWith
  rw [List.isPrefixOf_iff_prefix]
  constructor
  · rintro ⟨t, ht⟩
    exact ⟨String.mk t, by cases p; simp_all [String.ext_iff]⟩
  · rintro ⟨t, rfl⟩
    exact ⟨t.data, by simp⟩

/-- Claim C6, witnessed: `/` and `/about` highlight their exact routes,
and `/articles/0` highlights the articles entry by prefix. -/
theorem nav_highlight_witness :
    homeSelected "/" = true ∧ aboutSelected "/about" = true ∧
    articlesNavSelected "/articles/0" = true := by
  refine ⟨(nav_highlight "/").1.mpr rfl, (nav_highlight "/about").2.1.mpr rfl,
    (nav_highlight "/articles/0").2.2.mpr ⟨"/0", ?_⟩⟩
  decide

/-- Claim C7: while mounted the display updates once per interval
firing, consecutive firings are exactly `clockIntervalMs = 1000`
milliseconds apart (the repeating 1-second timer), and after unmount
the cleanup has cancelled the timer so no number of further steps
changes the state (no update leaks after teardown). -/
theorem clock_interval_behavior :
    clockIntervalMs = 1000 ∧
    (∀ s : ClockSim, clockMount s =
      { now := s.now, timer := some (s.now + clockIntervalMs),
        displayUpdates := s.displayUpdates + 1 }) ∧
    (∀ s t, s.timer = some t → clockAdvance s =
      { now := t, timer := some (t + clockIntervalMs),
        displayUpdates := s.displayUpdates + 1 }) ∧
    ∀ s n, clockAdvance^[n] (clockUnmount s) = clockUnmount s := by
  refine ⟨rfl, fun s => rfl, fun s t h => ?_, fun s n => ?_⟩
  · unfold clockAdvance
    rw [h]
  · induction n with
    | zero => rfl
    | succ n ih =>
      rw [Function.iterate_succ_apply', ih]
      rfl

/-- Claim C7, witnessed: a firing scheduled at 1000ms advances the
clock there and reschedules at 2000ms, and five firing attempts after
unmount change nothing. -/
theorem clock_interval_behavior_witness :
    clockAdvance { now := 0, timer := some 1000, displayUpdates := 1 } =
      { now := 1000, timer := some 2000, displayUpdates := 2 } ∧
    clockAdvance^[5]
        (clockUnmount { now := 0, timer := some 1000, displayUpdates := 3 }) =
      clockUnmount { now := 0, timer := some 1000, displayUpdates := 3 } :=
  ⟨clock_interval_behavior.2.2.1 _ 1000 rfl,
   clock_interval_behavior.2.2.2 _ 5⟩

/-- Claim C8: on a metadata match, exactly one file read is attempted,
at the path obtained by joining the fixed articles directory with
`<id>.md`; the read trace of the request has length one (no retries,
and each request reads afresh — there is no cache). -/
theorem single_read_at_joined_path (fs : String → Option String)
    (cwd id : String) (a : Article) (h : findArticle id = some a) :
    (articleDetail fs cwd id).2 = [articleFilePath cwd id] ∧
    (articleDetail fs cwd id).2.length = 1 ∧
    articleFilePath cwd id =
      (cwd ++ "/" ++ "public/articles") ++ "/" ++ (id ++ ".md") := by
  rw [articleDetail_found fs cwd id a h]
  exact ⟨rfl, rfl, rfl⟩

/-- Claim C8, witnessed on article `0`. -/
theorem single_read_at_joined_path_witness :
    (articleDetail emptyFs "" "0").2 = [articleFilePath "" "0"] ∧
    (articleDetail emptyFs "" "0").2.length = 1 ∧
    articleFilePath "" "0" =
      ("" ++ "/" ++ "public/articles") ++ "/" ++ ("0" ++ ".md") :=
  single_read_at_joined_path emptyFs "" "0" article0 (by decide)

/-- Claim C9: the lookup compares the request string with the exact
decimal rendering of each id, so a string that denotes a listed number
without being its canonical decimal form (leading zeros, surrounding
whitespace) yields not-found. -/
theorem non_canonical_id_not_found (fs : String → Option String)
    (cwd s : String) (n : Nat)
    (hmem : n ∈ articles.data.map (fun a => a.id))
    (hden : denotesId s n)
    (hne : s ≠ toString n) :
    (articleDetail fs cwd s).1 = DetailResult.notFound := by
  have h0 : s ≠ "0" := by
    rintro rfl
    unfold denotesId at hden
    rw [show parseDecimal (jsTrim "0") = some 0 from by decide] at hden
    obtain rfl : (0 : Nat) = n := Option.some.inj hden
    exact hne (by decide)
  have h1 : s ≠ "1" := by
    rintro rfl
    unfold denotesId at hden
    rw [show parseDecimal (jsTrim "1") = some 1 from by decide] at hden
    obtain rfl : (1 : Nat) = n := Option.some.inj hden
    exact hne (by decide)
  have h2 : s ≠ "2" := by
    rintro rfl
    unfold denotesId at hden
    rw [show parseDecimal (jsTrim "2") = some 2 from by decide] at hden
    obtain rfl : (2 : Nat) = n := Option.some.inj hden
    exact hne (by decide)
  have hnone := findArticle_eq_none_of_ne s h0 h1 h2
  unfold findArticle at hnone
  unfold articleDetail
  rw [hnone]

/-- Claim C9, witnessed: `"1 "` (trailing whitespace) denotes the
listed id `1` but is not its canonical rendering, and yields
not-found. -/
theorem non_canonical_id_not_found_witness :
    1 ∈ articles.data.map (fun a => a.id) ∧ denotesId "1 " 1 ∧
    "1 " ≠ toString 1 ∧
    (articleDetail emptyFs "" "1 ").1 = DetailResult.notFound :=
  ⟨by decide, by decide, by decide,
   non_canonical_id_not_found emptyFs "" "1 " 1 (by decide) (by decide)
     (by decide)⟩

/-- Claim C10: list-to-detail navigation round-trips — the id strings
produced by `generateStaticParams` and used in the list page's links are
the canonical renderings of the numeric ids, those ids are pairwise
distinct, and the detail lookup on each such string returns that same
record and is never not-found. -/
theorem list_detail_round_trip (fs : String → Option String)
    (cwd : String) :
    generateStaticParams = articles.data.map (fun a => toString a.id) ∧
    List.Pairwise (fun x y : Article => x.id ≠ y.id) articles.data ∧
    (∀ a ∈ articles.data, findArticle (toString a.id) = some a) ∧
    (∀ a ∈ articles.data,
      (entryOfArticle a).href = "/articles/" ++ toString a.id) ∧
    ∀ a ∈ articles.data,
      (articleDetail fs cwd (toString a.id)).1 ≠ DetailResult.notFound := by
  refine ⟨rfl, by decide, findArticle_canonical, fun a _ => rfl,
    fun a ha => ?_⟩
  rw [articleDetail_found fs cwd (toString a.id) a (findArticle_canonical a ha)]
  exact fun h => DetailResult.noConfusion h

/-- Claim C10, witnessed on the second listed record. -/
theorem list_detail_round_trip_witness :
    findArticle (toString article1.id) = some article1 ∧
    (articleDetail emptyFs "" (toString article1.id)).1 ≠
      DetailResult.notFound :=
  ⟨(list_detail_round_trip emptyFs "").2.2.1 article1 (by decide),
   (list_detail_round_trip emptyFs "").2.2.2.2 article1 (by decide)⟩

end Portfolio
